import Mathlib

/-!
Verification development for the `Dialog` entity of vcon-utils
(`src/dialog.py`). The Python class is shallowly embedded: object
attributes become `Option` fields of a structure (an absent attribute is
`none`; the repository never distinguishes an attribute set to `None`
from a missing one on any path exercised here), Python dicts become
association lists in insertion order, raised exceptions become explicit
error results, and the two network calls (`requests.head`,
`requests.get`) are modelled by passing the response as an explicit
argument. The hash and encoding primitives used by the Integrity Engine
(`hashlib.sha256`, `base64.urlsafe_b64encode` / `urlsafe_b64decode`,
UTF-8 encode/decode) are implemented concretely over byte lists.
-/

namespace Vcon

/-- A Python value stored in the `meta` / `metadata` dicts or as a plain
attribute: the repository only ever stores strings and integers there. -/
inductive PyVal where
  | s (v : String)
  | i (v : Int)
deriving DecidableEq, Repr

/-- A Python dict, as an association list in insertion order. -/
abbrev Dict := List (String × PyVal)

/-- Python dict item assignment `d[k] = v`: replace in place if the key is
present, otherwise append (insertion order preserved). -/
def dictSet : Dict → String → PyVal → Dict
  | [], k, v => [(k, v)]
  | (k', v') :: rest, k, v =>
      if k' = k then (k, v) :: rest else (k', v') :: dictSet rest k v

/-- Python dict lookup `d.get(k)`. -/
def dictGet? : Dict → String → Option PyVal
  | [], _ => none
  | (k', v) :: rest, k => if k' = k then some v else dictGet? rest k

/-- Python `d.update(m)`: item assignment for every pair of `m` in order. -/
def dictUpdate (d m : Dict) : Dict :=
  m.foldl (fun acc p => dictSet acc p.1 p.2) d

/-- A Python value as assigned to an object attribute by `setattr`: a
scalar, a dict (the shape `meta`/`metadata` hold), or a list of party
indices (the shape `parties` holds). -/
inductive AttrVal where
  | scalar (v : PyVal)
  | dict (m : Dict)
  | ilist (v : List Int)
deriving DecidableEq, Repr

/-- Attribute-table item assignment: replace in place if the name is
present, otherwise append (the `__dict__` behaviour of `setattr`). -/
def attrSet : List (String × AttrVal) → String → AttrVal →
    List (String × AttrVal)
  | [], k, v => [(k, v)]
  | (k', v') :: rest, k, v =>
      if k' = k then (k, v) :: rest else (k', v') :: attrSet rest k v

/-! ## SHA-256 (`hashlib.sha256`), over byte lists (each byte a `Nat < 256`) -/

/-- Truncate to a 32-bit word. -/
def w32 (x : Nat) : Nat := x % 4294967296

/-- Right rotation of a 32-bit word. -/
def rotr32 (n x : Nat) : Nat := w32 ((x >>> n) ||| (x <<< (32 - n)))

/-- Bitwise complement of a 32-bit word. -/
def not32 (x : Nat) : Nat := 4294967295 - x

def ch32 (x y z : Nat) : Nat := (x &&& y) ^^^ (not32 x &&& z)

def maj32 (x y z : Nat) : Nat := (x &&& y) ^^^ (x &&& z) ^^^ (y &&& z)

def bigSigma0 (x : Nat) : Nat := rotr32 2 x ^^^ rotr32 13 x ^^^ rotr32 22 x

def bigSigma1 (x : Nat) : Nat := rotr32 6 x ^^^ rotr32 11 x ^^^ rotr32 25 x

def smallSigma0 (x : Nat) : Nat := rotr32 7 x ^^^ rotr32 18 x ^^^ (x >>> 3)

def smallSigma1 (x : Nat) : Nat := rotr32 17 x ^^^ rotr32 19 x ^^^ (x >>> 10)

/-- The 64 SHA-256 round constants, as decimal 32-bit values. -/
def shaK : List Nat :=
  [1116352408, 1899447441, 3049323471, 3921009573, 961987163,
   1508970993, 2453635748, 2870763221, 3624381080, 310598401,
   607225278, 1426881987, 1925078388, 2162078206, 2614888103,
   3248222580, 3835390401, 4022224774, 264347078, 604807628,
   770255983, 1249150122, 1555081692, 1996064986, 2554220882,
   2821834349, 2952996808, 3210313671, 3336571891, 3584528711,
   113926993, 338241895, 666307205, 773529912, 1294757372,
   1396182291, 1695183700, 1986661051, 2177026350, 2456956037,
   2730485921, 2820302411, 3259730800, 3345764771, 3516065817,
   3600352804, 4094571909, 275423344, 430227734, 506948616,
   659060556, 883997877, 958139571, 1322822218, 1537002063,
   1747873779, 1955562222, 2024104815, 2227730452, 2361852424,
   2428436474, 2756734187, 3204031479, 3329325298]

/-- The SHA-256 initial hash state, as decimal 32-bit values. -/
def shaH0 : List Nat :=
  [1779033703, 3144134277, 1013904242, 2773480762,
   1359893119, 2600822924, 528734635, 1541459225]

/-- Index into a word list, defaulting to `0` (all uses are in range). -/
def nthW (l : List Nat) (i : Nat) : Nat := l.getD i 0

/-- Extend the 16 message-schedule words of one block to 64. -/
def shaSchedule (block : List Nat) : List Nat :=
  (List.range 48).foldl
    (fun w _ =>
      let t := w.length
      w ++ [w32 (smallSigma1 (nthW w (t - 2)) + nthW w (t - 7) +
                 smallSigma0 (nthW w (t - 15)) + nthW w (t - 16))])
    block

/-- One SHA-256 compression round on the 8-word working state. -/
def shaRound (st : List Nat) (kw : Nat × Nat) : List Nat :=
  match st with
  | [a, b, c, d, e, f, g, h] =>
      let t1 := w32 (h + bigSigma1 e + ch32 e f g + kw.1 + kw.2)
      let t2 := w32 (bigSigma0 a + maj32 a b c)
      [w32 (t1 + t2), a, b, c, w32 (d + t1), e, f, g]
  | other => other

/-- Compress one 16-word block into the running hash state. -/
def shaCompress (h : List Nat) (block : List Nat) : List Nat :=
  let st := (shaK.zip (shaSchedule block)).foldl shaRound h
  (h.zip st).map (fun p => w32 (p.1 + p.2))

/-- Big-endian 32-bit words from bytes (length a multiple of 4). -/
def bytesToWords32 : List Nat → List Nat
  | b0 :: b1 :: b2 :: b3 :: rest =>
      (((b0 * 256 + b1) * 256 + b2) * 256 + b3) :: bytesToWords32 rest
  | _ => []

/-- A 32-bit word as 4 big-endian bytes. -/
def word32ToBytes (x : Nat) : List Nat :=
  [x / 16777216 % 256, x / 65536 % 256, x / 256 % 256, x % 256]

/-- A 64-bit value as 8 big-endian bytes. -/
def word64ToBytes (x : Nat) : List Nat :=
  [x / 72057594037927936 % 256, x / 281474976710656 % 256,
   x / 1099511627776 % 256, x / 4294967296 % 256,
   x / 16777216 % 256, x / 65536 % 256, x / 256 % 256, x % 256]

/-- SHA-256 padding: `0x80`, zeros to 56 mod 64, then the bit length. -/
def shaPad (msg : List Nat) : List Nat :=
  msg ++ [128] ++ List.replicate ((120 - ((msg.length + 1) % 64)) % 64) 0 ++
    word64ToBytes (8 * msg.length)

/-- Split into 64-byte chunks (fuel-indexed; the fuel bounds the count). -/
def chunksOf64 : Nat → List Nat → List (List Nat)
  | 0, _ => []
  | _, [] => []
  | fuel + 1, l => l.take 64 :: chunksOf64 fuel (l.drop 64)

/-- SHA-256 digest of a byte list, as its 32 digest bytes. -/
def sha256 (msg : List Nat) : List Nat :=
  let padded := shaPad msg
  let blocks := (chunksOf64 padded.length padded).map bytesToWords32
  (blocks.foldl shaCompress shaH0).flatMap word32ToBytes

/-! ## URL-safe base64 (`base64.urlsafe_b64encode` / `urlsafe_b64decode`) -/

/-- The URL-safe base64 alphabet. -/
def b64Alphabet : String :=
  "ABCDEFGHIJKLMNOPQRSTUVWXYZabcdefghijklmnopqrstuvwxyz0123456789-_"

/-- Character of the URL-safe alphabet at a 6-bit index. -/
def b64CharAt (i : Nat) : Char := b64Alphabet.data.getD i 'A'

/-- Encode bytes three at a time, padding with `=` as Python does. -/
def b64urlEncodeCore : List Nat → List Char
  | a :: b :: c :: rest =>
      b64CharAt (a / 4) :: b64CharAt (a % 4 * 16 + b / 16) ::
        b64CharAt (b % 16 * 4 + c / 64) :: b64CharAt (c % 64) ::
        b64urlEncodeCore rest
  | [a, b] =>
      [b64CharAt (a / 4), b64CharAt (a % 4 * 16 + b / 16),
       b64CharAt (b % 16 * 4), '=']
  | [a] => [b64CharAt (a / 4), b64CharAt (a % 4 * 16), '=', '=']
  | [] => []

/-- `base64.urlsafe_b64encode(bs).decode()`. -/
def b64urlEncode (bs : List Nat) : String := String.mk (b64urlEncodeCore bs)

/-- Decoding index of a character: the URL-safe alphabet, plus the two
standard-alphabet characters, which `urlsafe_b64decode` also accepts
(it only translates `-` and `_` before a standard decode). -/
def b64DecIndex? (c : Char) : Option Nat :=
  match b64Alphabet.data.findIdx? (fun a => a = c) with
  | some i => some i
  | none => if c = '+' then some 62 else if c = '/' then some 63 else none

/-- Decode filtered base64 text four characters at a time; `none` models
`binascii.Error` (bad padding or a quad that is not well formed). -/
def b64Quads : List Char → Option (List Nat)
  | [] => some []
  | c1 :: c2 :: c3 :: c4 :: rest =>
      match b64DecIndex? c1, b64DecIndex? c2 with
      | some i1, some i2 =>
          if c3 = '=' then
            if c4 = '=' ∧ rest = [] then some [i1 * 4 + i2 / 16] else none
          else
            match b64DecIndex? c3 with
            | some i3 =>
                if c4 = '=' then
                  if rest = [] then
                    some [i1 * 4 + i2 / 16, i2 % 16 * 16 + i3 / 4]
                  else none
                else
                  match b64DecIndex? c4 with
                  | some i4 =>
                      (b64Quads rest).map
                        (fun tl => (i1 * 4 + i2 / 16) ::
                          (i2 % 16 * 16 + i3 / 4) :: (i3 % 4 * 64 + i4) :: tl)
                  | none => none
            | none => none
      | _, _ => none
  | _ => none

/-- `base64.urlsafe_b64decode(s)`: characters outside the alphabets are
discarded, then the remainder must decode in complete quads; `none`
models the raised `binascii.Error`. -/
def b64urlDecode? (s : String) : Option (List Nat) :=
  b64Quads (s.data.filter (fun c => (b64DecIndex? c).isSome || c = '='))

/-! ## UTF-8 (`str.encode()` and strict `bytes.decode("utf-8")`) -/

/-- UTF-8 encoding of one code point. -/
def utf8EncodeChar (n : Nat) : List Nat :=
  if n < 128 then [n]
  else if n < 2048 then [192 + n / 64, 128 + n % 64]
  else if n < 65536 then [224 + n / 4096, 128 + n / 64 % 64, 128 + n % 64]
  else [240 + n / 262144, 128 + n / 4096 % 64, 128 + n / 64 % 64, 128 + n % 64]

/-- `str.encode()`: the UTF-8 bytes of a string. -/
def utf8Encode (s : String) : List Nat :=
  s.data.flatMap (fun c => utf8EncodeChar c.toNat)

/-- Is a byte a UTF-8 continuation byte? -/
def isCont (b : Nat) : Prop := 128 ≤ b ∧ b < 192

instance (b : Nat) : Decidable (isCont b) := by unfold isCont; infer_instance

/-- Strict UTF-8 decoding of a byte list to code points; `none` models the
`UnicodeDecodeError` Python raises (truncated sequences, stray
continuation bytes, overlong forms, surrogates, out-of-range values). -/
def utf8DecodeChars : List Nat → Option (List Char)
  | [] => some []
  | b :: rest =>
      if b < 128 then
        (utf8DecodeChars rest).map (fun tl => Char.ofNat b :: tl)
      else if b < 194 then none
      else if b < 224 then
        match rest with
        | b2 :: rest2 =>
            if isCont b2 then
              (utf8DecodeChars rest2).map
                (fun tl => Char.ofNat ((b - 192) * 64 + (b2 - 128)) :: tl)
            else none
        | [] => none
      else if b < 240 then
        match rest with
        | b2 :: b3 :: rest3 =>
            if isCont b2 ∧ isCont b3 then
              let cp := (b - 224) * 4096 + (b2 - 128) * 64 + (b3 - 128)
              if cp < 2048 ∨ (55296 ≤ cp ∧ cp < 57344) then none
              else (utf8DecodeChars rest3).map (fun tl => Char.ofNat cp :: tl)
            else none
        | _ => none
      else if b < 245 then
        match rest with
        | b2 :: b3 :: b4 :: rest4 =>
            if isCont b2 ∧ isCont b3 ∧ isCont b4 then
              let cp := (b - 240) * 262144 + (b2 - 128) * 4096 +
                        (b3 - 128) * 64 + (b4 - 128)
              if cp < 65536 ∨ 1114111 < cp then none
              else (utf8DecodeChars rest4).map (fun tl => Char.ofNat cp :: tl)
            else none
        | _ => none
      else none

/-- `raw.decode("utf-8")` with strict error handling. -/
def utf8Decode? (bs : List Nat) : Option String :=
  (utf8DecodeChars bs).map String.mk

/-! ## The Dialog entity (`class Dialog`) -/

/-- Python string splitting `s.split(sep)` for a one-character separator. -/
def splitCharAux (sep : Char) : List Char → List Char → List String
  | [], acc => [String.mk acc.reverse]
  | c :: rest, acc =>
      if c = sep then String.mk acc.reverse :: splitCharAux sep rest []
      else splitCharAux sep rest (c :: acc)

/-- `s.split(sep)[i]` building blocks: the full split. -/
def pySplit (sep : Char) (s : String) : List String :=
  splitCharAux sep s.data []

/-- ASCII lowering of one character (`str.lower()` restricted to the ASCII
range, which covers every extension the table compares against). -/
def charLower (c : Char) : Char :=
  if 65 ≤ c.toNat ∧ c.toNat ≤ 90 then Char.ofNat (c.toNat + 32) else c

/-- `s.lower()` on ASCII text. -/
def lowerStr (s : String) : String := String.mk (s.data.map charLower)

/-- Python truthiness of an optional string: present and non-empty. -/
def pyTruthy? (o : Option String) : Bool :=
  match o with
  | some s => !s.data.isEmpty
  | none => false

/-- The Dialog entity. Each Python attribute that any modelled operation
reads or writes is a field; `none` is an absent attribute. Attributes
never read by a modelled operation (`transferee`, `transferor`,
`transfer_target`, `original`, `consultation`, `target_dialog`,
`campaign`, `interaction`, `skill`, `party_history`, `transfer`,
`signaling`) and attributes set under names the model does not carry are
held opaquely in `extra` (the rest of the object `__dict__`). -/
structure Dialog where
  type : Option String := none
  start : Option String := none
  parties : Option (List Int) := none
  originator : Option Int := none
  mimetype : Option String := none
  filename : Option String := none
  body : Option String := none
  encoding : Option String := none
  url : Option String := none
  alg : Option String := none
  signature : Option String := none
  disposition : Option String := none
  meta : Option Dict := none
  metadata : Option Dict := none
  resolution : Option AttrVal := none
  frame_rate : Option AttrVal := none
  codec : Option AttrVal := none
  bitrate : Option AttrVal := none
  duration : Option AttrVal := none
  thumbnail : Option AttrVal := none
  extra : List (String × AttrVal) := []
deriving DecidableEq, Repr

/-- `Dialog.VALID_TYPES`. -/
def VALID_TYPES : List String :=
  ["recording", "text", "transfer", "incomplete", "audio", "video"]

/-- The fixed audio mimetype list of `is_audio`. -/
def audioMimes : List String :=
  ["audio/x-wav", "audio/wav", "audio/wave", "audio/mpeg", "audio/mp3",
   "audio/ogg", "audio/webm", "audio/x-m4a", "audio/aac"]

/-- The fixed video mimetype list of `is_video`. -/
def videoMimes : List String :=
  ["video/x-mp4", "video/ogg", "video/mp4", "video/quicktime", "video/webm",
   "video/x-msvideo", "video/x-matroska", "video/mpeg", "video/x-flv",
   "video/3gpp", "video/x-m4v"]

/-- `Dialog.is_external_data`: `hasattr(self, "url")`. -/
def is_external_data (d : Dialog) : Bool := d.url.isSome

/-- `Dialog.is_inline_data`: `not self.is_external_data()`. -/
def is_inline_data (d : Dialog) : Bool := !is_external_data d

/-- `Dialog.is_audio`: mimetype membership in the fixed audio list. -/
def is_audio (d : Dialog) : Bool :=
  match d.mimetype with
  | some m => audioMimes.contains m
  | none => false

/-- `Dialog.is_video`: `type == "video"` or mimetype in the video list. -/
def is_video (d : Dialog) : Bool :=
  (d.type == some "video") ||
    (match d.mimetype with
     | some m => videoMimes.contains m
     | none => false)

/-! ## Extension-to-mimetype inference: the two copies of the table -/

/-- `filename.split(".")[-1].lower()`. -/
def fileExt (f : String) : String := lowerStr ((pySplit '.' f).getLastD "")

/-- The extension table as written inside `Dialog.__init__`
(`src/dialog.py` lines 226-247). -/
def extToMimeInit (ext : String) : String :=
  if ext = "mp4" then "video/mp4"
  else if ext = "mov" then "video/quicktime"
  else if ext = "webm" then "video/webm"
  else if ext = "avi" then "video/x-msvideo"
  else if ext = "mkv" then "video/x-matroska"
  else if ext = "mpg" ∨ ext = "mpeg" then "video/mpeg"
  else if ext = "flv" then "video/x-flv"
  else if ext = "3gp" then "video/3gpp"
  else if ext = "m4v" then "video/x-m4v"
  else "video/mp4"

/-- The extension table as written inside `Dialog.add_video_data`
(`src/dialog.py` lines 385-406) — a second copy in the source. -/
def extToMimeAVD (ext : String) : String :=
  if ext = "mp4" then "video/mp4"
  else if ext = "mov" then "video/quicktime"
  else if ext = "webm" then "video/webm"
  else if ext = "avi" then "video/x-msvideo"
  else if ext = "mkv" then "video/x-matroska"
  else if ext = "mpg" ∨ ext = "mpeg" then "video/mpeg"
  else if ext = "flv" then "video/x-flv"
  else if ext = "3gp" then "video/3gpp"
  else if ext = "m4v" then "video/x-m4v"
  else "video/mp4"

/-- Construction-time inference (`__init__`, lines 222-250): run when
`type == "video"` and no mimetype attribute is set; a truthy filename
goes through the table, otherwise the default is `"video/mp4"`. -/
def inferMimetypeInit (filename : Option String) : String :=
  if pyTruthy? filename then extToMimeInit (fileExt (filename.getD ""))
  else "video/mp4"

/-- The inference inside `add_video_data` (lines 382-406): the local
`mimetype` variable afterward — the supplied one if truthy, the table
result when the filename is truthy, and otherwise unchanged. -/
def inferMimetypeAVD (mimetype filename : Option String) : Option String :=
  if !pyTruthy? mimetype && pyTruthy? filename then
    some (extToMimeAVD (fileExt (filename.getD "")))
  else mimetype

/-! ## Construction (`Dialog.__init__`) -/

/-- The construction errors: every branch of `__init__` that raises
`ValueError` (the `ValidationError` of the specification). `invalidType`
carries the offending value and the enumerated valid set exactly as the
message text does; `unparsableStart` models the `ParserError` (a
`ValueError`) that `dateutil.parser.parse` raises. -/
inductive VError where
  | invalidType (offending : String) (valid : List String)
  | missingDisposition
  | unparsableStart
deriving DecidableEq, Repr

/-- The `start` argument: a native `datetime` (identified by its
`isoformat()` text, on which conversion never fails) or a raw string to
be run through `dateutil.parser.parse(...).isoformat()`. -/
inductive StartVal where
  | dt (iso : String)
  | str (raw : String)
deriving DecidableEq, Repr

/-- Canonicalize `start` (lines 192-195). The `parse` argument models the
external `dateutil` parser composed with `isoformat`; `none` is a parse
failure. -/
def canonStart (parse : String → Option String) : StartVal → Option String
  | StartVal.dt iso => some iso
  | StartVal.str raw => parse raw

/-- The named arguments of `__init__` that the modelled operations read
(a `none` argument, like an omitted one, sets no attribute). `kwargs`
holds the extra keyword attributes with their non-`None` values; Python
itself guarantees its keys are disjoint from the named parameters (a
duplicate keyword is a `TypeError` at the call), so these assignments
can only create attributes the model holds in `extra`. -/
structure InitArgs where
  type : String
  start : StartVal
  parties : List Int
  originator : Option Int := none
  mimetype : Option String := none
  filename : Option String := none
  body : Option String := none
  encoding : Option String := none
  url : Option String := none
  alg : Option String := none
  signature : Option String := none
  disposition : Option String := none
  meta : Option Dict := none
  metadata : Option Dict := none
  resolution : Option AttrVal := none
  frame_rate : Option AttrVal := none
  codec : Option AttrVal := none
  bitrate : Option AttrVal := none
  duration : Option AttrVal := none
  thumbnail : Option AttrVal := none
  kwargs : List (String × AttrVal) := []
deriving Repr

/-- The `meta`/`metadata` reconciliation (lines 205-211): copy whichever
map was supplied into the other; with neither, two fresh empty maps;
with both, leave both exactly as supplied. -/
def reconcileMaps (meta metadata : Option Dict) : Dict × Dict :=
  match meta, metadata with
  | some m, none => (m, m)
  | none, some md => (md, md)
  | none, none => ([], [])
  | some m, some md => (m, md)

/-- The attribute state after the `setattr` loop and reconciliation. -/
def baseDialog (a : InitArgs) (startIso : String) : Dialog :=
  let mm := reconcileMaps a.meta a.metadata
  { type := some a.type, start := some startIso, parties := some a.parties,
    originator := a.originator, mimetype := a.mimetype,
    filename := a.filename, body := a.body, encoding := a.encoding,
    url := a.url, alg := a.alg, signature := a.signature,
    disposition := a.disposition, meta := some mm.1, metadata := some mm.2,
    resolution := a.resolution, frame_rate := a.frame_rate, codec := a.codec,
    bitrate := a.bitrate, duration := a.duration, thumbnail := a.thumbnail,
    extra := a.kwargs }

/-- `Dialog.__init__` (lines 186-250): type validation, `start`
canonicalization, attribute assignment, map reconciliation, the
`incomplete`-needs-`disposition` check, then video mimetype inference. -/
def dialogInit (parse : String → Option String) (a : InitArgs) :
    Except VError Dialog :=
  if a.type ∈ VALID_TYPES then
    match canonStart parse a.start with
    | none => Except.error VError.unparsableStart
    | some startIso =>
        let d := baseDialog a startIso
        if a.type = "incomplete" ∧ d.disposition = none then
          Except.error VError.missingDisposition
        else if a.type = "video" ∧ d.mimetype = none then
          Except.ok { d with mimetype := some (inferMimetypeInit d.filename) }
        else Except.ok d
  else Except.error (VError.invalidType a.type VALID_TYPES)

/-! ## Content attachment and conversion -/

/-- The exception a failed HEAD/GET raises (`FetchError` in the
specification; a plain `Exception` with the status in the message in the
source). -/
inductive PyErr where
  | fetch (status : Nat)
deriving DecidableEq, Repr

/-- The outcome of a mutating method on the Python object: normal return,
or an exception raised with the object left in the state it had reached
(Python mutates in place, so a raise can expose partial mutation). -/
inductive PyResult where
  | ok (d : Dialog)
  | exn (e : PyErr) (d : Dialog)
deriving DecidableEq, Repr

/-- Sequencing of two mutating calls on the same object. -/
def PyResult.andThen (r : PyResult) (f : Dialog → PyResult) : PyResult :=
  match r with
  | PyResult.ok d => f d
  | PyResult.exn e d => PyResult.exn e d

/-- A `requests.head` response: status plus the two consumed headers.
`contentLength` is the parsed `Content-Length` value; `none` models an
absent (or empty) header. -/
structure HeadResponse where
  status : Nat
  contentType : Option String := none
  contentLength : Option Int := none
deriving DecidableEq, Repr

/-- The last path segment of a URL after stripping the query string:
`url.split("?")[0].split("/")[-1]`. -/
def lastSegNoQuery (url : String) : String :=
  (pySplit '/' ((pySplit '?' url).headD "")).getLastD ""

/-- The state updates of the `status_code == 200` branch of
`add_external_data` (lines 293-320), in source order, applied to the
dialog that already carries the new `url`. -/
def externalSuccessState (resp : HeadResponse) (d : Dialog)
    (filename mimetype : Option String) : Dialog :=
  let d := { d with
    mimetype := if pyTruthy? mimetype then mimetype else resp.contentType }
  let d := { d with
    filename := if pyTruthy? filename then filename
                else some (lastSegNoQuery (d.url.getD "")) }
  let d := { d with alg := some "external-reference",
                    encoding := some "none" }
  if is_video d then
    match resp.contentLength with
    | some n =>
        let md := dictSet (d.metadata.getD []) "content_length" (PyVal.i n)
        { d with metadata := some md }
    | none => d
  else d

/-- `Dialog.add_external_data` (lines 275-322). The `url` attribute is
assigned before the HEAD request, so it survives a failure. -/
def add_external_data (resp : HeadResponse) (d : Dialog) (url : String)
    (filename mimetype : Option String) : PyResult :=
  let d := { d with url := some url }
  if resp.status = 200 then
    PyResult.ok (externalSuccessState resp d filename mimetype)
  else PyResult.exn (PyErr.fetch resp.status) d

/-- `Dialog.add_inline_data` (lines 324-344): store the body, descriptor
fields, and the Integrity Engine signature over the UTF-8 bytes of the
body. The filename and mimetype are optional because `add_video_data`
passes possibly-`None` values through. -/
def add_inline_data (d : Dialog) (body : String)
    (filename mimetype : Option String) : Dialog :=
  { d with body := some body, mimetype := mimetype, filename := filename,
           alg := some "sha256", encoding := some "base64url",
           signature := some (b64urlEncode (sha256 (utf8Encode body))) }

/-- `setattr(self, key, value)` dispatched by attribute name onto the
modelled fields: dict values reach `meta`/`metadata`, any value reaches
the six video attributes, and type-matching values reach the remaining
core fields. A value whose Python type does not match the modelled
field (for example an integer assigned to `body`) is recorded opaquely
in `extra`: no repository call site or claim performs such an
assignment, and every modelled read of that attribute would raise in
Python. Names the model does not carry also land in `extra`. -/
def setattrByName (d : Dialog) (key : String) (val : AttrVal) : Dialog :=
  if key = "meta" then
    match val with
    | AttrVal.dict m => { d with meta := some m }
    | _ => { d with extra := attrSet d.extra key val }
  else if key = "metadata" then
    match val with
    | AttrVal.dict m => { d with metadata := some m }
    | _ => { d with extra := attrSet d.extra key val }
  else if key = "resolution" then { d with resolution := some val }
  else if key = "frame_rate" then { d with frame_rate := some val }
  else if key = "codec" then { d with codec := some val }
  else if key = "bitrate" then { d with bitrate := some val }
  else if key = "duration" then { d with duration := some val }
  else if key = "thumbnail" then { d with thumbnail := some val }
  else if key = "parties" then
    match val with
    | AttrVal.ilist v => { d with parties := some v }
    | _ => { d with extra := attrSet d.extra key val }
  else if key = "originator" then
    match val with
    | AttrVal.scalar (PyVal.i v) => { d with originator := some v }
    | _ => { d with extra := attrSet d.extra key val }
  else if key = "type" then
    match val with
    | AttrVal.scalar (PyVal.s v) => { d with type := some v }
    | _ => { d with extra := attrSet d.extra key val }
  else if key = "start" then
    match val with
    | AttrVal.scalar (PyVal.s v) => { d with start := some v }
    | _ => { d with extra := attrSet d.extra key val }
  else if key = "mimetype" then
    match val with
    | AttrVal.scalar (PyVal.s v) => { d with mimetype := some v }
    | _ => { d with extra := attrSet d.extra key val }
  else if key = "filename" then
    match val with
    | AttrVal.scalar (PyVal.s v) => { d with filename := some v }
    | _ => { d with extra := attrSet d.extra key val }
  else if key = "body" then
    match val with
    | AttrVal.scalar (PyVal.s v) => { d with body := some v }
    | _ => { d with extra := attrSet d.extra key val }
  else if key = "encoding" then
    match val with
    | AttrVal.scalar (PyVal.s v) => { d with encoding := some v }
    | _ => { d with extra := attrSet d.extra key val }
  else if key = "url" then
    match val with
    | AttrVal.scalar (PyVal.s v) => { d with url := some v }
    | _ => { d with extra := attrSet d.extra key val }
  else if key = "alg" then
    match val with
    | AttrVal.scalar (PyVal.s v) => { d with alg := some v }
    | _ => { d with extra := attrSet d.extra key val }
  else if key = "signature" then
    match val with
    | AttrVal.scalar (PyVal.s v) => { d with signature := some v }
    | _ => { d with extra := attrSet d.extra key val }
  else if key = "disposition" then
    match val with
    | AttrVal.scalar (PyVal.s v) => { d with disposition := some v }
    | _ => { d with extra := attrSet d.extra key val }
  else { d with extra := attrSet d.extra key val }

/-- The `**kwargs` of `add_video_data`: the two descriptor keys the
method reads through `kwargs.get`, and the remaining entries with their
non-`None` values, which the `setattr` loop (lines 414-417) applies to
the object by name — including names of core attributes such as `meta`
or `resolution`. -/
structure VideoKwargs where
  filename : Option String := none
  mimetype : Option String := none
  attrs : List (String × AttrVal) := []
deriving DecidableEq, Repr

/-- The opening steps of `add_video_data` (lines 360-374): force
`type = "video"`, ensure both maps exist, and merge the supplied
metadata into both. -/
def videoMergedState (d : Dialog) (metadata : Option Dict) : Dialog :=
  let d := { d with type := some "video" }
  let d := if d.metadata.isNone then { d with metadata := some [] } else d
  let d := if d.meta.isNone then { d with meta := some [] } else d
  match metadata with
  | some m =>
      if m.isEmpty then d
      else { d with metadata := some (dictUpdate (d.metadata.getD []) m),
                    meta := some (dictUpdate (d.meta.getD []) m) }
  | none => d

/-- `Dialog.add_video_data` (lines 346-417): force `type = "video"`,
ensure and merge both metadata maps, derive filename and mimetype, then
dispatch to the external or inline attach, applying leftover kwargs only
when no exception was raised. -/
def add_video_data (resp : HeadResponse) (d : Dialog) (source : String)
    (metadata : Option Dict) (is_ext : Bool) (kw : VideoKwargs) : PyResult :=
  let d := videoMergedState d metadata
  let filename :=
    if is_ext && !pyTruthy? kw.filename then some (lastSegNoQuery source)
    else kw.filename
  let mimetype := inferMimetypeAVD kw.mimetype filename
  PyResult.andThen
    (if is_ext then add_external_data resp d source filename mimetype
     else PyResult.ok (add_inline_data d source filename mimetype))
    (fun d2 =>
      PyResult.ok
        ((kw.attrs.filter
            (fun p => !(p.1 = "filename" ∨ p.1 = "mimetype" : Bool))).foldl
          (fun acc p => setattrByName acc p.1 p.2) d2))

/-- Promotion of one recognized metadata key to a direct attribute
(`update_video_metadata`, lines 489-492). -/
def promoteOne (d : Dialog) (p : String × PyVal) : Dialog :=
  if p.1 = "resolution" then { d with resolution := some (AttrVal.scalar p.2) }
  else if p.1 = "frame_rate" then
    { d with frame_rate := some (AttrVal.scalar p.2) }
  else if p.1 = "codec" then { d with codec := some (AttrVal.scalar p.2) }
  else if p.1 = "bitrate" then { d with bitrate := some (AttrVal.scalar p.2) }
  else if p.1 = "duration" then { d with duration := some (AttrVal.scalar p.2) }
  else if p.1 = "thumbnail" then
    { d with thumbnail := some (AttrVal.scalar p.2) }
  else d

/-- `Dialog.update_video_metadata` (lines 470-492): ensure both maps,
merge the argument into both, then promote the recognized keys. -/
def update_video_metadata (d : Dialog) (metadata : Dict) : Dialog :=
  let d := if d.metadata.isNone then { d with metadata := some [] } else d
  let d := if d.meta.isNone then { d with meta := some [] } else d
  let d := { d with
    metadata := some (dictUpdate (d.metadata.getD []) metadata),
    meta := some (dictUpdate (d.meta.getD []) metadata) }
  metadata.foldl promoteOne d

/-! ## Integrity check (`is_external_data_changed`) -/

/-- What can go wrong inside the `try` block of the integrity check:
a missing `signature` or `body` attribute (`AttributeError`) or a
signature that does not base64-decode (`binascii.Error`). -/
inductive CheckErr where
  | attributeMissing
  | decodeFailed
deriving DecidableEq, Repr

/-- The body of the `try` block (lines 609-610), with each Python
exception surfaced as an explicit error: read `signature`, decode it,
read `body`, hash, compare. -/
def integrityCheckBody (d : Dialog) : Except CheckErr Bool :=
  match d.signature with
  | none => Except.error CheckErr.attributeMissing
  | some sig =>
      match b64urlDecode? sig with
      | none => Except.error CheckErr.decodeFailed
      | some bodyHash =>
          match d.body with
          | none => Except.error CheckErr.attributeMissing
          | some body =>
              Except.ok (decide (sha256 (utf8Encode body) ≠ bodyHash))

/-- `Dialog.is_external_data_changed` (lines 598-613): `False` for a
non-external dialog; otherwise the hash comparison, with every exception
caught and turned into `True`. -/
def is_external_data_changed (d : Dialog) : Bool :=
  if !is_external_data d then false
  else
    match integrityCheckBody d with
    | Except.ok b => b
    | Except.error _ => true

/-! ## External-to-inline conversion (`to_inline_data`) -/

/-- A `requests.get` response: status, raw body bytes, and the
`Content-Type` header. -/
structure GetResponse where
  status : Nat
  content : List Nat
  contentType : Option String := none
deriving DecidableEq, Repr

/-- The body text and encoding chosen for the fetched raw bytes (lines
635-647): base64url for audio/video media, otherwise the UTF-8 decoding
when it succeeds, with base64url as the fallback. -/
def inlineBodyEncoding (d : Dialog) (raw : List Nat) : String × String :=
  if is_video d || is_audio d then (b64urlEncode raw, "base64url")
  else
    match utf8Decode? raw with
    | some text => (text, "none")
    | none => (b64urlEncode raw, "base64url")

/-- The state updates of the `status_code == 200` branch of
`to_inline_data` (lines 631-666), in source order: body and encoding,
mimetype backfill, signature over the raw bytes, filename backfill, then
removal of `url`. -/
def inlineSuccessState (d : Dialog) (raw : List Nat)
    (ctype : Option String) : Dialog :=
  let be := inlineBodyEncoding d raw
  let d := { d with body := some be.1, encoding := some be.2 }
  let d := if !pyTruthy? d.mimetype then { d with mimetype := ctype }
           else d
  let d := { d with alg := some "sha256",
                    signature := some (b64urlEncode (sha256 raw)) }
  let fnFromUrl := (pySplit '/' (d.url.getD "")).getLastD ""
  let d := if d.filename.isNone then { d with filename := some fnFromUrl }
           else d
  { d with url := none }

/-- `Dialog.to_inline_data` (lines 617-672): a no-op when already inline;
on status 200 install the encoded body, backfill mimetype and filename,
sign the raw bytes, and clear `url`; on any other status raise with the
object untouched (nothing was mutated before the raise). -/
def to_inline_data (resp : GetResponse) (d : Dialog) : PyResult :=
  if !is_external_data d then PyResult.ok d
  else if resp.status = 200 then
    PyResult.ok (inlineSuccessState d resp.content resp.contentType)
  else PyResult.exn (PyErr.fetch resp.status) d

/-! ## Dict lemmas and the `meta`/`metadata` mirroring invariant -/

/-- Lookup after item assignment: the assigned key reads back the new
value, every other key is untouched. -/
theorem dictGet_dictSet (d : Dict) (k : String) (v : PyVal) (k' : String) :
    dictGet? (dictSet d k v) k' = if k' = k then some v else dictGet? d k' := by
  induction d with
  | nil =>
      by_cases h : k' = k
      · subst h; simp [dictSet, dictGet?]
      · simp [dictSet, dictGet?, h, show ¬k = k' from fun hh => h hh.symm]
  | cons p rest ih =>
      obtain ⟨kd, vd⟩ := p
      by_cases h1 : kd = k
      · subst h1
        by_cases h2 : k' = kd
        · subst h2; simp [dictSet, dictGet?]
        · simp [dictSet, dictGet?, h2,
                show ¬kd = k' from fun hh => h2 hh.symm]
      · by_cases h2 : kd = k'
        · have hne : ¬k' = k := fun hh => h1 (h2.trans hh)
          simp [dictSet, dictGet?, h1, h2, hne]
        · simp [dictSet, dictGet?, h1, h2, ih]

/-- Updating two maps that agree pointwise with the same dict keeps them
agreeing pointwise. -/
theorem dictGet_dictUpdate_congr (m : Dict) :
    ∀ d1 d2 : Dict, (∀ k, dictGet? d1 k = dictGet? d2 k) →
      ∀ k, dictGet? (dictUpdate d1 m) k = dictGet? (dictUpdate d2 m) k := by
  induction m with
  | nil => intro d1 d2 h k; exact h k
  | cons p rest ih =>
      intro d1 d2 h k
      have hstep : ∀ k', dictGet? (dictSet d1 p.1 p.2) k' =
          dictGet? (dictSet d2 p.1 p.2) k' := by
        intro k'
        rw [dictGet_dictSet, dictGet_dictSet, h]
      simpa [dictUpdate] using ih _ _ hstep k

/-- Invariant I5: the two metadata maps agree as key/value maps (an
absent map read as empty, which is how every write path treats it). -/
def mapsAgree (d : Dialog) : Prop :=
  ∀ k, dictGet? (d.meta.getD []) k = dictGet? (d.metadata.getD []) k

/-- When at most one of the two maps is supplied to `__init__`, the
reconciliation produces the same dict on both sides. -/
theorem reconcileMaps_agree (m1 m2 : Option Dict)
    (h : m1 = none ∨ m2 = none) :
    (reconcileMaps m1 m2).1 = (reconcileMaps m1 m2).2 := by
  rcases h with h | h
  · subst h; cases m2 <;> rfl
  · subst h; cases m1 <;> rfl

/-- Key promotion never touches the two metadata maps. -/
theorem promoteOne_maps (d : Dialog) (p : String × PyVal) :
    (promoteOne d p).meta = d.meta ∧ (promoteOne d p).metadata = d.metadata := by
  unfold promoteOne
  split_ifs <;> exact ⟨rfl, rfl⟩

/-- Folded key promotion never touches the two metadata maps. -/
theorem foldl_promote_maps (m : Dict) : ∀ d : Dialog,
    (m.foldl promoteOne d).meta = d.meta ∧
    (m.foldl promoteOne d).metadata = d.metadata := by
  induction m with
  | nil => intro d; exact ⟨rfl, rfl⟩
  | cons p rest ih =>
      intro d
      have h1 := ih (promoteOne d p)
      have h2 := promoteOne_maps d p
      refine ⟨?_, ?_⟩ <;> simp [List.foldl, h1.1, h1.2, h2.1, h2.2]

/-- The success branch of `to_inline_data` never touches the maps. -/
theorem inlineSuccessState_maps (d : Dialog) (raw : List Nat)
    (ctype : Option String) :
    (inlineSuccessState d raw ctype).meta = d.meta ∧
    (inlineSuccessState d raw ctype).metadata = d.metadata := by
  refine ⟨?_, ?_⟩ <;>
    simp [inlineSuccessState, apply_ite Dialog.meta, apply_ite Dialog.metadata]

/-- With no discovered `Content-Length`, the success branch of
`add_external_data` never touches the maps. -/
theorem externalSuccessState_maps (resp : HeadResponse) (d : Dialog)
    (fn mt : Option String) (hcl : resp.contentLength = none) :
    (externalSuccessState resp d fn mt).meta = d.meta ∧
    (externalSuccessState resp d fn mt).metadata = d.metadata := by
  refine ⟨?_, ?_⟩ <;>
    simp [externalSuccessState, hcl, apply_ite Dialog.meta,
          apply_ite Dialog.metadata]

/-! ## Implementation checks of the Integrity Engine primitives -/

/-- The SHA-256 implementation agrees with the FIPS 180-4 test vector
for the message "abc". -/
theorem sha256_vector_abc :
    sha256 [97, 98, 99] =
      [186, 120, 22, 191, 143, 1, 207, 234, 65, 65, 64, 222, 93, 174, 34, 35,
       176, 3, 97, 163, 150, 23, 122, 156, 180, 16, 255, 97, 242, 0, 21, 173] := by
  decide

/-- The base64url encoder agrees with Python on the digest of "hello"
(the value the repository test scenario checks). -/
theorem b64url_vector_hello :
    b64urlEncode (sha256 (utf8Encode "hello")) =
      "LPJNul-wow4m6DsqxbninhsWHlwfp0JecwQzYpOLmCQ=" := by
  decide

/-! ## Claim C1 -/

/-- Claim C1: for every string body and every filename and mimetype,
`add_inline_data` sets `alg` to "sha256", `encoding` to "base64url",
stores the given body, filename and mimetype, and stores as `signature`
the URL-safe base64 encoding of the SHA-256 digest of the UTF-8 bytes of
the body — so recomputing SHA-256/base64url over the stored body yields
exactly the stored signature. -/
theorem add_inline_data_signs (d : Dialog) (body fn mt : String) :
    (add_inline_data d body (some fn) (some mt)).alg = some "sha256" ∧
    (add_inline_data d body (some fn) (some mt)).encoding = some "base64url" ∧
    (add_inline_data d body (some fn) (some mt)).body = some body ∧
    (add_inline_data d body (some fn) (some mt)).filename = some fn ∧
    (add_inline_data d body (some fn) (some mt)).mimetype = some mt ∧
    (add_inline_data d body (some fn) (some mt)).signature =
      some (b64urlEncode (sha256 (utf8Encode body))) ∧
    (add_inline_data d body (some fn) (some mt)).body.map
        (fun b => b64urlEncode (sha256 (utf8Encode b))) =
      (add_inline_data d body (some fn) (some mt)).signature :=
  ⟨rfl, rfl, rfl, rfl, rfl, rfl, rfl⟩

/-! ## Claim C3 -/

/-- If the `try` block of the integrity check would raise, the whole
body is an error (never a crash of the predicate). -/
theorem integrityCheckBody_error_cases (d : Dialog) :
    (d.body = none → ∃ e, integrityCheckBody d = Except.error e) ∧
    (d.signature = none → ∃ e, integrityCheckBody d = Except.error e) ∧
    (∀ s, d.signature = some s → b64urlDecode? s = none →
      ∃ e, integrityCheckBody d = Except.error e) := by
  refine ⟨?_, ?_, ?_⟩
  · intro hb
    cases hs : d.signature with
    | none => exact ⟨CheckErr.attributeMissing, by simp [integrityCheckBody, hs]⟩
    | some sig =>
        cases hdec : b64urlDecode? sig with
        | none =>
            exact ⟨CheckErr.decodeFailed, by simp [integrityCheckBody, hs, hdec]⟩
        | some h =>
            exact ⟨CheckErr.attributeMissing,
              by simp [integrityCheckBody, hs, hdec, hb]⟩
  · intro hs
    exact ⟨CheckErr.attributeMissing, by simp [integrityCheckBody, hs]⟩
  · intro s hs hdec
    exact ⟨CheckErr.decodeFailed, by simp [integrityCheckBody, hs, hdec]⟩

/-- Claim C3: on an EXTERNAL fragment the integrity predicate never
propagates an exception — every failure inside the guarded block (missing
body, missing signature, signature that does not decode) makes it return
`True` ("changed"); in particular an EXTERNAL fragment with no local body
is reported as changed rather than raising. -/
theorem integrity_check_fail_safe (d : Dialog)
    (hext : is_external_data d = true) :
    (∀ e, integrityCheckBody d = Except.error e →
      is_external_data_changed d = true) ∧
    (d.body = none → is_external_data_changed d = true) ∧
    (d.signature = none → is_external_data_changed d = true) ∧
    (∀ s, d.signature = some s → b64urlDecode? s = none →
      is_external_data_changed d = true) := by
  have herr : ∀ e, integrityCheckBody d = Except.error e →
      is_external_data_changed d = true := by
    intro e he
    simp [is_external_data_changed, hext, he]
  refine ⟨herr, ?_, ?_, ?_⟩
  · intro hb
    obtain ⟨e, he⟩ := (integrityCheckBody_error_cases d).1 hb
    exact herr e he
  · intro hs
    obtain ⟨e, he⟩ := (integrityCheckBody_error_cases d).2.1 hs
    exact herr e he
  · intro s hs hdec
    obtain ⟨e, he⟩ := (integrityCheckBody_error_cases d).2.2 s hs hdec
    exact herr e he

/-- A concrete EXTERNAL fragment with no local body. -/
def dExtNoBody : Dialog :=
  { type := some "recording", url := some "https://host/rec.wav",
    alg := some "external-reference", encoding := some "none" }

/-- Witness for claim C3 at a concrete EXTERNAL fragment with no body:
the predicate answers "changed" instead of raising. -/
theorem integrity_check_fail_safe_witness :
    is_external_data_changed dExtNoBody = true :=
  (integrity_check_fail_safe dExtNoBody rfl).2.1 rfl

/-! ## Claim C7 -/

/-- Claim C7: `to_inline_data` is idempotent — on a fragment already in
INLINE state it is a no-op that alters no field, so a second call leaves
the fragment identical to the first. -/
theorem to_inline_data_idempotent (d : Dialog) (r1 r2 : GetResponse)
    (h : is_inline_data d = true) :
    to_inline_data r1 d = PyResult.ok d ∧
    PyResult.andThen (to_inline_data r1 d) (to_inline_data r2) =
      to_inline_data r1 d := by
  have hx : is_external_data d = false := by
    simpa [is_inline_data] using h
  constructor
  · simp [to_inline_data, hx]
  · simp [to_inline_data, hx, PyResult.andThen]

/-- A concrete INLINE fragment carrying signed inline content. -/
def dInlineC7 : Dialog :=
  { type := some "text", body := some "hello", encoding := some "base64url",
    alg := some "sha256", mimetype := some "text/plain",
    signature := some (b64urlEncode (sha256 (utf8Encode "hello"))) }

/-- Witness for claim C7 at a concrete INLINE fragment. -/
theorem to_inline_data_idempotent_witness :
    to_inline_data { status := 200, content := [] } dInlineC7 =
      PyResult.ok dInlineC7 :=
  (to_inline_data_idempotent dInlineC7 { status := 200, content := [] }
    { status := 200, content := [] } rfl).1

/-! ## Claim C10 -/

/-- Claim C10: for every fragment not in EXTERNAL state,
`is_external_data_changed` returns `False` unconditionally — the body of
an INLINE fragment is never re-hashed against its stored signature. -/
theorem inline_never_reported_changed (d : Dialog)
    (h : is_inline_data d = true) :
    is_external_data_changed d = false := by
  have hx : is_external_data d = false := by
    simpa [is_inline_data] using h
  simp [is_external_data_changed, hx]

/-- A concrete INLINE fragment whose body does not match its stored
signature (the signature signs a different body). -/
def dInlineTampered : Dialog :=
  { type := some "text", body := some "tampered", encoding := some "none",
    alg := some "sha256",
    signature := some (b64urlEncode (sha256 (utf8Encode "original"))) }

/-- Witness for claim C10: even a tampered INLINE fragment is reported
as unchanged, because the predicate never checks inline content. -/
theorem inline_never_reported_changed_witness :
    is_external_data_changed dInlineTampered = false :=
  inline_never_reported_changed dInlineTampered rfl

/-! ## Claim C2 -/

/-- A concrete EXTERNAL fragment. -/
def dExtC2 : Dialog :=
  { type := some "text", url := some "https://host/a.txt",
    alg := some "external-reference", encoding := some "none",
    meta := some [], metadata := some [] }

/-- Counterexample to claim C2 as stated: 204 is a success (2xx) status,
yet `to_inline_data` raises on it, because the source accepts exactly
status 200 (`response.status_code == 200`, line 630). -/
theorem to_inline_data_raises_on_204 :
    (200 ≤ 204 ∧ 204 < 300) ∧
    is_external_data dExtC2 = true ∧
    to_inline_data { status := 204, content := [] } dExtC2 =
      PyResult.exn (PyErr.fetch 204) dExtC2 :=
  ⟨by decide, rfl, rfl⟩

/-- Claim C2 (amended): on an EXTERNAL fragment, `to_inline_data` raises
`FetchError` exactly when the GET status is not 200; whenever it raises,
the fragment is left with every field unchanged, and on status 200 it
completes without raising. -/
theorem to_inline_data_fetch_error (d : Dialog) (r : GetResponse)
    (hext : is_external_data d = true) :
    (r.status ≠ 200 →
      to_inline_data r d = PyResult.exn (PyErr.fetch r.status) d) ∧
    (∀ e d2, to_inline_data r d = PyResult.exn e d2 →
      r.status ≠ 200 ∧ e = PyErr.fetch r.status ∧ d2 = d) ∧
    (r.status = 200 →
      to_inline_data r d = PyResult.ok (inlineSuccessState d r.content r.contentType)) := by
  refine ⟨?_, ?_, ?_⟩
  · intro hne
    simp [to_inline_data, hext, hne]
  · intro e d2 he
    by_cases hst : r.status = 200
    · simp [to_inline_data, hext, hst] at he
    · simp [to_inline_data, hext, hst] at he
      exact ⟨hst, he.1.symm, he.2.symm⟩
  · intro hst
    simp [to_inline_data, hext, hst]

/-- Witness for claim C2 (amended) at a concrete failing GET. -/
theorem to_inline_data_fetch_error_witness :
    to_inline_data { status := 404, content := [] } dExtC2 =
      PyResult.exn (PyErr.fetch 404) dExtC2 :=
  (to_inline_data_fetch_error dExtC2 { status := 404, content := [] }
    rfl).1 (by decide)

/-! ## Claim C6 -/

/-- Claim C6: a successful `to_inline_data` on an EXTERNAL fragment sets
`alg` to "sha256" and `signature` to the URL-safe base64 of the SHA-256
digest of the raw fetched bytes; the body is the raw bytes base64url
encoded with encoding "base64url" when the fragment is audio or video,
and otherwise the UTF-8 decoding with encoding "none" when decoding
succeeds, with the base64url fallback on decode failure; and the `url`
field is cleared, leaving the fragment INLINE. -/
theorem to_inline_data_success_shape (d : Dialog) (r : GetResponse)
    (hext : is_external_data d = true) (hst : r.status = 200) :
    to_inline_data r d =
      PyResult.ok (inlineSuccessState d r.content r.contentType) ∧
    (inlineSuccessState d r.content r.contentType).alg = some "sha256" ∧
    (inlineSuccessState d r.content r.contentType).signature =
      some (b64urlEncode (sha256 r.content)) ∧
    (inlineSuccessState d r.content r.contentType).url = none ∧
    is_inline_data (inlineSuccessState d r.content r.contentType) = true ∧
    ((is_video d || is_audio d) = true →
      (inlineSuccessState d r.content r.contentType).body =
          some (b64urlEncode r.content) ∧
      (inlineSuccessState d r.content r.contentType).encoding =
          some "base64url") ∧
    ((is_video d || is_audio d) = false →
      (∀ t, utf8Decode? r.content = some t →
        (inlineSuccessState d r.content r.contentType).body = some t ∧
        (inlineSuccessState d r.content r.contentType).encoding =
            some "none") ∧
      (utf8Decode? r.content = none →
        (inlineSuccessState d r.content r.contentType).body =
            some (b64urlEncode r.content) ∧
        (inlineSuccessState d r.content r.contentType).encoding =
            some "base64url")) := by
  refine ⟨by simp [to_inline_data, hext, hst], ?_, ?_, ?_, ?_, ?_, ?_⟩
  · simp [inlineSuccessState, apply_ite Dialog.alg]
  · simp [inlineSuccessState, apply_ite Dialog.signature]
  · simp [inlineSuccessState]
  · simp [is_inline_data, is_external_data, inlineSuccessState]
  · intro hav
    constructor
    · simp [inlineSuccessState, inlineBodyEncoding, hav,
            apply_ite Dialog.body]
    · simp [inlineSuccessState, inlineBodyEncoding, hav,
            apply_ite Dialog.encoding]
  · intro hav
    constructor
    · intro t ht
      constructor
      · simp [inlineSuccessState, inlineBodyEncoding, hav, ht,
              apply_ite Dialog.body]
      · simp [inlineSuccessState, inlineBodyEncoding, hav, ht,
              apply_ite Dialog.encoding]
    · intro ht
      constructor
      · simp [inlineSuccessState, inlineBodyEncoding, hav, ht,
              apply_ite Dialog.body]
      · simp [inlineSuccessState, inlineBodyEncoding, hav, ht,
              apply_ite Dialog.encoding]

/-- A concrete EXTERNAL text fragment for the C6 witness. -/
def dExtC6 : Dialog :=
  { type := some "text", url := some "https://host/c6.txt",
    alg := some "external-reference", encoding := some "none" }

/-- Witness for claim C6 at a concrete 200 GET response. -/
theorem to_inline_data_success_shape_witness :
    to_inline_data
        { status := 200, content := [104, 105],
          contentType := some "text/plain" } dExtC6 =
      PyResult.ok (inlineSuccessState dExtC6 [104, 105] (some "text/plain")) :=
  (to_inline_data_success_shape dExtC6
    { status := 200, content := [104, 105], contentType := some "text/plain" }
    rfl rfl).1

/-! ## Claim C8 -/

/-- Unfolding of `dialogInit` when the type is valid and `start` does
not canonicalize. -/
theorem dialogInit_noStart (parse : String → Option String) (a : InitArgs)
    (hmem : a.type ∈ VALID_TYPES) (hc : canonStart parse a.start = none) :
    dialogInit parse a = Except.error VError.unparsableStart := by
  rw [dialogInit, if_pos hmem, hc]

/-- Unfolding of `dialogInit` when the type is valid and `start`
canonicalizes to `s`. -/
theorem dialogInit_some (parse : String → Option String) (a : InitArgs)
    (s : String) (hmem : a.type ∈ VALID_TYPES)
    (hc : canonStart parse a.start = some s) :
    dialogInit parse a =
      (if a.type = "incomplete" ∧ (baseDialog a s).disposition = none then
        Except.error VError.missingDisposition
      else if a.type = "video" ∧ (baseDialog a s).mimetype = none then
        Except.ok { baseDialog a s with
          mimetype := some (inferMimetypeInit (baseDialog a s).filename) }
      else Except.ok (baseDialog a s)) := by
  rw [dialogInit, if_pos hmem, hc]

/-- Claim C8: construction raises `ValidationError` with the offending
value and the enumerated valid set exactly when the `type` argument is
outside the closed set `VALID_TYPES`; for every type in the set, with
the other construction preconditions met (`start` canonicalizes, and an
`incomplete` dialog has a disposition), construction succeeds. -/
theorem init_type_validation (parse : String → Option String) (a : InitArgs) :
    (dialogInit parse a =
        Except.error (VError.invalidType a.type VALID_TYPES) ↔
      a.type ∉ VALID_TYPES) ∧
    (a.type ∈ VALID_TYPES → canonStart parse a.start ≠ none →
      (a.type = "incomplete" → a.disposition ≠ none) →
      ∃ d, dialogInit parse a = Except.ok d) := by
  constructor
  · constructor
    · intro he hmem
      cases hc : canonStart parse a.start with
      | none => rw [dialogInit_noStart parse a hmem hc] at he; cases he
      | some s =>
          rw [dialogInit_some parse a s hmem hc] at he
          split at he
          · cases he
          · split at he <;> cases he
    · intro hmem
      rw [dialogInit, if_neg hmem]
  · intro hmem hstart hdisp
    cases hc : canonStart parse a.start with
    | none => exact absurd hc hstart
    | some s =>
        rw [dialogInit_some parse a s hmem hc]
        have hnd : ¬(a.type = "incomplete" ∧
            (baseDialog a s).disposition = none) := by
          rintro ⟨h1, h2⟩
          exact hdisp h1 (by simpa [baseDialog] using h2)
        rw [if_neg hnd]
        split
        · exact ⟨_, rfl⟩
        · exact ⟨_, rfl⟩

/-- Stands in for `dateutil.parser.parse(...).isoformat()` on a string
already in canonical ISO form, on which the parser round-trips. -/
def isoParse : String → Option String := fun s => some s

/-- A concrete valid construction call. -/
def c8args : InitArgs :=
  { type := "text", start := StartVal.dt "2024-01-01T00:00:00",
    parties := [0, 1] }

/-- A concrete invalid-type construction call. -/
def c8badArgs : InitArgs :=
  { type := "email", start := StartVal.dt "2024-01-01T00:00:00",
    parties := [0] }

/-- Witness for claim C8: the concrete valid call succeeds, and a
concrete unknown type is rejected with the structured error. -/
theorem init_type_validation_witness :
    (dialogInit isoParse c8args).isOk = true ∧
    dialogInit isoParse c8badArgs =
      Except.error (VError.invalidType "email" VALID_TYPES) := by
  constructor
  · obtain ⟨d, hd⟩ :=
      (init_type_validation isoParse c8args).2 (by decide) (by decide)
        (by decide)
    rw [hd]; rfl
  · exact (init_type_validation isoParse c8badArgs).1.2 (by decide)

/-! ## Claim C9 -/

/-- Stands in for `dateutil.parser.parse` on a string it cannot parse,
where it raises `ParserError`. -/
def noParse : String → Option String := fun _ => none

/-- A construction call with `type = "incomplete"`, a disposition, and a
`start` string the date parser rejects. -/
def c9args : InitArgs :=
  { type := "incomplete", start := StartVal.str "definitely not a date",
    parties := [], disposition := some "hangup" }

/-- Counterexample to claim C9 as stated: a dialog with
`type = "incomplete"` and a disposition supplied still fails to
construct when its `start` string is unparsable, so "with a disposition
supplied construction always succeeds" is false. -/
theorem incomplete_with_disposition_can_fail :
    c9args.type = "incomplete" ∧ c9args.disposition = some "hangup" ∧
    dialogInit noParse c9args = Except.error VError.unparsableStart :=
  ⟨rfl, rfl, rfl⟩

/-- Claim C9 (amended): `type = "incomplete"` with no disposition always
raises `ValidationError`; with a disposition supplied it succeeds
provided `start` canonicalizes (a native timestamp or a parsable
string). -/
theorem incomplete_requires_disposition (parse : String → Option String)
    (a : InitArgs) (hty : a.type = "incomplete") :
    (a.disposition = none → ∃ e, dialogInit parse a = Except.error e) ∧
    (a.disposition ≠ none → canonStart parse a.start ≠ none →
      ∃ d, dialogInit parse a = Except.ok d) := by
  have hmem : a.type ∈ VALID_TYPES := by rw [hty]; decide
  constructor
  · intro hnd
    cases hc : canonStart parse a.start with
    | none =>
        exact ⟨VError.unparsableStart, dialogInit_noStart parse a hmem hc⟩
    | some s =>
        refine ⟨VError.missingDisposition, ?_⟩
        rw [dialogInit_some parse a s hmem hc]
        rw [if_pos ⟨hty, by simpa [baseDialog] using hnd⟩]
  · intro hdisp hstart
    cases hc : canonStart parse a.start with
    | none => exact absurd hc hstart
    | some s =>
        rw [dialogInit_some parse a s hmem hc]
        have hnd : ¬(a.type = "incomplete" ∧
            (baseDialog a s).disposition = none) := by
          rintro ⟨_, h2⟩
          exact hdisp (by simpa [baseDialog] using h2)
        rw [if_neg hnd]
        split
        · exact ⟨_, rfl⟩
        · exact ⟨_, rfl⟩

/-- A concrete incomplete dialog with a disposition and a native
timestamp. -/
def c9okArgs : InitArgs :=
  { type := "incomplete", start := StartVal.dt "2024-01-01T00:00:00",
    parties := [], disposition := some "voicemail" }

/-- Witness for claim C9 (amended) at concrete inputs. -/
theorem incomplete_requires_disposition_witness :
    (dialogInit isoParse c9okArgs).isOk = true := by
  obtain ⟨d, hd⟩ :=
    (incomplete_requires_disposition isoParse c9okArgs rfl).2 (by decide)
      (by decide)
  rw [hd]; rfl

/-! ## Claim C4 -/

/-- Folded key promotion never touches `meta` (projection form). -/
theorem foldl_promote_meta (m : Dict) (d : Dialog) :
    (m.foldl promoteOne d).meta = d.meta :=
  (foldl_promote_maps m d).1

/-- Folded key promotion never touches `metadata` (projection form). -/
theorem foldl_promote_metadata (m : Dict) (d : Dialog) :
    (m.foldl promoteOne d).metadata = d.metadata :=
  (foldl_promote_maps m d).2

/-- A `setattr` under any name other than `meta` and `metadata` leaves
the two maps untouched. -/
theorem setattrByName_maps (d : Dialog) (k : String) (v : AttrVal)
    (h1 : ¬k = "meta") (h2 : ¬k = "metadata") :
    (setattrByName d k v).meta = d.meta ∧
    (setattrByName d k v).metadata = d.metadata := by
  unfold setattrByName
  rw [if_neg h1, if_neg h2]
  by_cases hk : k = "resolution"
  · rw [if_pos hk]; exact ⟨rfl, rfl⟩
  rw [if_neg hk]; clear hk
  by_cases hk : k = "frame_rate"
  · rw [if_pos hk]; exact ⟨rfl, rfl⟩
  rw [if_neg hk]; clear hk
  by_cases hk : k = "codec"
  · rw [if_pos hk]; exact ⟨rfl, rfl⟩
  rw [if_neg hk]; clear hk
  by_cases hk : k = "bitrate"
  · rw [if_pos hk]; exact ⟨rfl, rfl⟩
  rw [if_neg hk]; clear hk
  by_cases hk : k = "duration"
  · rw [if_pos hk]; exact ⟨rfl, rfl⟩
  rw [if_neg hk]; clear hk
  by_cases hk : k = "thumbnail"
  · rw [if_pos hk]; exact ⟨rfl, rfl⟩
  rw [if_neg hk]; clear hk
  by_cases hk : k = "parties"
  · rw [if_pos hk]
    rcases v with x | m2 | il <;> (try rcases x with xs | xi) <;>
      exact ⟨rfl, rfl⟩
  rw [if_neg hk]; clear hk
  by_cases hk : k = "originator"
  · rw [if_pos hk]
    rcases v with x | m2 | il <;> (try rcases x with xs | xi) <;>
      exact ⟨rfl, rfl⟩
  rw [if_neg hk]; clear hk
  by_cases hk : k = "type"
  · rw [if_pos hk]
    rcases v with x | m2 | il <;> (try rcases x with xs | xi) <;>
      exact ⟨rfl, rfl⟩
  rw [if_neg hk]; clear hk
  by_cases hk : k = "start"
  · rw [if_pos hk]
    rcases v with x | m2 | il <;> (try rcases x with xs | xi) <;>
      exact ⟨rfl, rfl⟩
  rw [if_neg hk]; clear hk
  by_cases hk : k = "mimetype"
  · rw [if_pos hk]
    rcases v with x | m2 | il <;> (try rcases x with xs | xi) <;>
      exact ⟨rfl, rfl⟩
  rw [if_neg hk]; clear hk
  by_cases hk : k = "filename"
  · rw [if_pos hk]
    rcases v with x | m2 | il <;> (try rcases x with xs | xi) <;>
      exact ⟨rfl, rfl⟩
  rw [if_neg hk]; clear hk
  by_cases hk : k = "body"
  · rw [if_pos hk]
    rcases v with x | m2 | il <;> (try rcases x with xs | xi) <;>
      exact ⟨rfl, rfl⟩
  rw [if_neg hk]; clear hk
  by_cases hk : k = "encoding"
  · rw [if_pos hk]
    rcases v with x | m2 | il <;> (try rcases x with xs | xi) <;>
      exact ⟨rfl, rfl⟩
  rw [if_neg hk]; clear hk
  by_cases hk : k = "url"
  · rw [if_pos hk]
    rcases v with x | m2 | il <;> (try rcases x with xs | xi) <;>
      exact ⟨rfl, rfl⟩
  rw [if_neg hk]; clear hk
  by_cases hk : k = "alg"
  · rw [if_pos hk]
    rcases v with x | m2 | il <;> (try rcases x with xs | xi) <;>
      exact ⟨rfl, rfl⟩
  rw [if_neg hk]; clear hk
  by_cases hk : k = "signature"
  · rw [if_pos hk]
    rcases v with x | m2 | il <;> (try rcases x with xs | xi) <;>
      exact ⟨rfl, rfl⟩
  rw [if_neg hk]; clear hk
  by_cases hk : k = "disposition"
  · rw [if_pos hk]
    rcases v with x | m2 | il <;> (try rcases x with xs | xi) <;>
      exact ⟨rfl, rfl⟩
  rw [if_neg hk]; clear hk
  exact ⟨rfl, rfl⟩

/-- A `setattr` loop over names other than `meta` and `metadata` leaves
the two maps untouched. -/
theorem foldl_setattr_maps (l : List (String × AttrVal)) :
    (∀ p ∈ l, ¬p.1 = "meta" ∧ ¬p.1 = "metadata") →
    ∀ d : Dialog,
      (List.foldl (fun acc p => setattrByName acc p.1 p.2) d l).meta =
        d.meta ∧
      (List.foldl (fun acc p => setattrByName acc p.1 p.2) d l).metadata =
        d.metadata := by
  induction l with
  | nil => intro _ d; exact ⟨rfl, rfl⟩
  | cons p rest ih =>
      intro hl d
      have hp := hl p (by simp)
      have hs := setattrByName_maps d p.1 p.2 hp.1 hp.2
      have hr := ih (fun q hq => hl q (by simp [hq]))
        (setattrByName d p.1 p.2)
      refine ⟨?_, ?_⟩
      · rw [List.foldl_cons, hr.1, hs.1]
      · rw [List.foldl_cons, hr.2, hs.2]

/-- The ensure-and-merge prologue of `add_video_data` keeps the two maps
agreeing whenever they agreed before. -/
theorem videoMergedState_agree (d : Dialog) (md : Option Dict)
    (h : mapsAgree d) : mapsAgree (videoMergedState d md) := by
  intro k
  rcases md with _ | m
  · rcases hme : d.meta with _ | me <;>
      rcases hmd : d.metadata with _ | md2 <;>
      simp [videoMergedState, hme, hmd] <;>
      simpa [hme, hmd] using h k
  · by_cases hm : m.isEmpty
    · rcases hme : d.meta with _ | me <;>
        rcases hmd : d.metadata with _ | md2 <;>
        simp [videoMergedState, hme, hmd, hm] <;>
        simpa [hme, hmd] using h k
    · have key := dictGet_dictUpdate_congr m _ _ h k
      rcases hme : d.meta with _ | me <;>
        rcases hmd : d.metadata with _ | md2 <;>
        simp [videoMergedState, hme, hmd, hm] <;>
        simpa [hme, hmd] using key

/-- Claim C4 (amended): `meta` and `metadata` agree as key/value maps
after construction whenever at most one of them was supplied, and the
agreement is preserved by `add_inline_data`, `update_video_metadata`,
`add_video_data` with inline content whose leftover kwargs do not
assign the `meta` or `metadata` attribute, `to_inline_data`, and by
`add_external_data` when no `Content-Length` was discovered; the
remaining write paths (construction with both maps supplied, the
`content_length` write of `add_external_data`, which touches `metadata`
only, and a `meta=` or `metadata=` kwarg of `add_video_data`, which the
`setattr` loop assigns to one map only) can leave the two maps
different. -/
theorem meta_metadata_mirrored :
    (∀ parse a d, (a.meta = none ∨ a.metadata = none) →
      dialogInit parse a = Except.ok d → mapsAgree d) ∧
    (∀ d body fn mt, mapsAgree d →
      mapsAgree (add_inline_data d body fn mt)) ∧
    (∀ d m, mapsAgree d → mapsAgree (update_video_metadata d m)) ∧
    (∀ resp d src md kw d2, mapsAgree d →
      (∀ p ∈ kw.attrs, ¬p.1 = "meta" ∧ ¬p.1 = "metadata") →
      add_video_data resp d src md false kw = PyResult.ok d2 →
      mapsAgree d2) ∧
    (∀ r d d2, mapsAgree d → to_inline_data r d = PyResult.ok d2 →
      mapsAgree d2) ∧
    (∀ resp d url fn mt d2, mapsAgree d → resp.contentLength = none →
      add_external_data resp d url fn mt = PyResult.ok d2 →
      mapsAgree d2) := by
  refine ⟨?_, ?_, ?_, ?_, ?_, ?_⟩
  · intro parse a d hone hok
    by_cases hmem : a.type ∈ VALID_TYPES
    · cases hc : canonStart parse a.start with
      | none => rw [dialogInit_noStart parse a hmem hc] at hok; cases hok
      | some s =>
          rw [dialogInit_some parse a s hmem hc] at hok
          have hagree := reconcileMaps_agree a.meta a.metadata hone
          split at hok
          · cases hok
          · split at hok <;>
            · injection hok with hX
              subst hX
              intro k
              simp [baseDialog, hagree]
    · rw [dialogInit, if_neg hmem] at hok; cases hok
  · intro d body fn mt h k
    simpa [add_inline_data] using h k
  · intro d m h k
    have key := dictGet_dictUpdate_congr m _ _ h k
    rcases hme : d.meta with _ | me <;> rcases hmd : d.metadata with _ | md <;>
      simp [update_video_metadata, hme, hmd, foldl_promote_meta,
            foldl_promote_metadata] <;>
      simpa [hme, hmd] using key
  · intro resp d src md kw d2 h hkw hok
    simp [add_video_data, PyResult.andThen] at hok
    subst hok
    intro k
    have hfl : ∀ p ∈ List.filter
        (fun p => !decide (p.1 = "filename") && !decide (p.1 = "mimetype"))
        kw.attrs, ¬p.1 = "meta" ∧ ¬p.1 = "metadata" :=
      fun p hp => hkw p (List.mem_of_mem_filter hp)
    have hmerge := videoMergedState_agree d md h
    have hfold := foldl_setattr_maps _ hfl
      (add_inline_data (videoMergedState d md) src kw.filename
        (inferMimetypeAVD kw.mimetype kw.filename))
    rw [hfold.1, hfold.2]
    simpa [add_inline_data] using hmerge k
  · intro r d d2 h hok
    by_cases hx : is_external_data d
    · by_cases hst : r.status = 200
      · simp [to_inline_data, hx, hst] at hok
        subst hok
        intro k
        have hm := inlineSuccessState_maps d r.content r.contentType
        simpa [hm.1, hm.2] using h k
      · simp [to_inline_data, hx, hst] at hok
    · simp [to_inline_data, hx] at hok
      subst hok
      exact h
  · intro resp d url fn mt d2 h hcl hok
    by_cases hst : resp.status = 200
    · simp [add_external_data, hst] at hok
      subst hok
      intro k
      have hm := externalSuccessState_maps resp { d with url := some url }
        fn mt hcl
      simpa [hm.1, hm.2] using h k
    · simp [add_external_data, hst] at hok

/-- A construction call supplying both maps, with different contents. -/
def c4args : InitArgs :=
  { type := "text", start := StartVal.dt "2024-01-01T00:00:00",
    parties := [], meta := some [("a", PyVal.s "1")], metadata := some [] }

/-- A concrete video dialog with both maps present and agreeing. -/
def c4vid : Dialog :=
  { type := some "video", meta := some [], metadata := some [] }

/-- Counterexample to claim C4 as stated: construction with both maps
supplied keeps them different (`meta` holds key "a", `metadata` does
not); `add_external_data` on a video with a discovered `Content-Length`
writes `content_length` into `metadata` only; and a `meta=` keyword of
`add_video_data` reaches the `setattr` loop and overwrites `meta`
without touching `metadata`. -/
theorem maps_can_diverge :
    ((dialogInit isoParse c4args).toOption.map
      (fun d => (dictGet? (d.meta.getD []) "a",
                 dictGet? (d.metadata.getD []) "a"))) =
      some (some (PyVal.s "1"), none) ∧
    (match add_external_data
        { status := 200, contentType := some "video/mp4",
          contentLength := some 1000 } c4vid "https://x/v.mp4" none none with
      | PyResult.ok d => (dictGet? (d.metadata.getD []) "content_length",
                          dictGet? (d.meta.getD []) "content_length")
      | PyResult.exn _ _ => (none, none)) =
      (some (PyVal.i 1000), none) ∧
    (match add_video_data { status := 200 } c4vid "hello" none false
        { attrs := [("meta", AttrVal.dict [("x", PyVal.s "1")])] } with
      | PyResult.ok d => (dictGet? (d.meta.getD []) "x",
                          dictGet? (d.metadata.getD []) "x")
      | PyResult.exn _ _ => (none, none)) =
      (some (PyVal.s "1"), none) :=
  ⟨rfl, rfl, rfl⟩

/-- A base dialog for the C4 witness, with both maps present and equal. -/
def c4base : Dialog :=
  { type := some "video", meta := some [], metadata := some [] }

/-- Witness for claim C4 (amended): the `update_video_metadata`
preservation conjunct at a concrete dialog. -/
theorem meta_metadata_mirrored_witness :
    mapsAgree (update_video_metadata c4base [("codec", PyVal.s "H.264")]) :=
  meta_metadata_mirrored.2.2.1 c4base [("codec", PyVal.s "H.264")]
    (fun _ => rfl)

/-! ## Claim C5 -/

/-- A video construction call with no filename and no mimetype. -/
def c5initArgs : InitArgs :=
  { type := "video", start := StartVal.dt "2024-01-01T00:00:00",
    parties := [0] }

/-- A concrete inline text dialog for the C5 counterexample. -/
def c5base : Dialog :=
  { type := some "text", meta := some [], metadata := some [] }

/-- Counterexample to claim C5 as stated: with no filename (hence no
extension), construction-time inference yields the default "video/mp4",
but the inference inside `add_video_data` yields no mimetype at all —
end to end, constructing a video dialog without a filename gives
`mimetype = "video/mp4"` while `add_video_data` with inline content and
no filename leaves the mimetype unset. -/
theorem mimetype_inference_paths_diverge :
    inferMimetypeInit none = "video/mp4" ∧
    inferMimetypeAVD none none = none ∧
    ((dialogInit isoParse c5initArgs).toOption.map (fun d => d.mimetype)) =
      some (some "video/mp4") ∧
    (match add_video_data { status := 200 } c5base "hello" none false {} with
      | PyResult.ok d => d.mimetype
      | PyResult.exn _ d => d.mimetype) = none :=
  ⟨rfl, rfl, rfl, rfl⟩

/-- Claim C5 (amended): for every non-empty filename the two
extension-to-mimetype inference paths (construction time and inside
`add_video_data`) compute the same mimetype, with "clip.mkv" resolving
to "video/x-matroska" and "clip.xyz" or "clip" (no recognized or no
extension) resolving to the default "video/mp4"; the two paths differ
only when the filename is absent or empty, where construction defaults
to "video/mp4" while `add_video_data` leaves the mimetype unset. -/
theorem mimetype_inference_paths_agree (f : String) (hf : f ≠ "") :
    inferMimetypeAVD none (some f) = some (inferMimetypeInit (some f)) ∧
    inferMimetypeInit (some "clip.mkv") = "video/x-matroska" ∧
    inferMimetypeAVD none (some "clip.mkv") = some "video/x-matroska" ∧
    inferMimetypeInit (some "clip.xyz") = "video/mp4" ∧
    inferMimetypeAVD none (some "clip.xyz") = some "video/mp4" ∧
    inferMimetypeInit (some "clip") = "video/mp4" := by
  have htables : ∀ e, extToMimeAVD e = extToMimeInit e := fun _ => rfl
  have hd : f.data ≠ [] := by
    intro hempty
    apply hf
    cases f with
    | mk l => simp at hempty; subst hempty; rfl
  refine ⟨?_, by decide, by decide, by decide, by decide, by decide⟩
  simp [inferMimetypeAVD, inferMimetypeInit, pyTruthy?, htables, hd]

/-- Witness for claim C5 (amended) at the concrete filename "clip.mkv". -/
theorem mimetype_inference_paths_agree_witness :
    inferMimetypeAVD none (some "clip.mkv") =
      some (inferMimetypeInit (some "clip.mkv")) :=
  (mimetype_inference_paths_agree "clip.mkv" (by decide)).1

end Vcon
